import Mathlib

/-!
Shallow embedding of `src/index.tsx`: a single-page storefront that, on load,
performs one text-generation call producing a JSON array of product specs,
fans out one image-generation call per spec, waits for all of them
(`Promise.all`), and renders a product grid; failures anywhere in the
workflow collapse into a single error message.  External effects (the AI
client, `JSON.parse`, the completion order of the concurrent image promises)
are parameters of the embedding.
-/

namespace BloxdShop

/-- Product attributes returned by the text-generation call, matching the
`responseSchema` in `fetchProducts`: `name`, `description`, `price`. -/
structure ProductSpec where
  name : String
  description : String
  price : Rat
deriving DecidableEq

/-- A `ProductSpec` extended with the data-URI of its generated image,
as built by `return { ...product, imageUrl }` in `fetchProducts`. -/
structure Product where
  name : String
  description : String
  price : Rat
  imageUrl : String
deriving DecidableEq

/-- Projection back to the textual attributes of a `Product`. -/
def Product.toSpec (q : Product) : ProductSpec :=
  { name := q.name, description := q.description, price := q.price }

/-- The `useState` cells of the `App` component: `products`, `loading`,
`error`, `isChatOpen`. -/
structure UIState where
  products : List Product
  loading : Bool
  error : String
  chatOpen : Bool
deriving DecidableEq

/-- Initial state: `useState([])`, `useState(true)`, `useState('')`,
`useState(false)`. -/
def initialState : UIState :=
  { products := [], loading := true, error := "", chatOpen := false }

/-- The single user-visible error message set in the `catch` block. -/
def errorMessage : String := "Failed to generate merchandise. Please try again later."

/-- The image prompt template, a deterministic function of the product name. -/
def imagePrompt (name : String) : String :=
  "A professional ecommerce product photograph of a t-shirt featuring a clean, modern, minimalist graphic design inspired by \"" ++ name ++ "\". The t-shirt is neatly displayed on a neutral, light gray background. High-quality, commercial photography."

/-- The data URI built from the base64 image bytes. -/
def mkImageUrl (bytes : String) : String := "data:image/png;base64," ++ bytes

/-- `return { ...product, imageUrl }`: spread of the spec plus the image URL. -/
def extendWithImage (p : ProductSpec) (url : String) : Product :=
  { name := p.name, description := p.description, price := p.price, imageUrl := url }

/-- The external effects one run of the workflow observes: the outcome of the
text call (`generateContent` either throws or yields `response.text`), the
behaviour of `JSON.parse` on that text (throws, or yields an array matching
the schema), the outcome of each image call keyed by its prompt, and the
order in which the concurrent image promises settle. -/
structure Env where
  textResult : Except Unit String
  parse : String → Except Unit (List ProductSpec)
  imageResult : String → Except Unit String
  completionOrder : List Nat

/-- The async closure passed to `productTextData.map`: awaits the image call
for the spec's prompt and merges the bytes into a `Product`; a throwing image
call makes the promise reject. -/
def imageTask (imageGen : String → Except Unit String) (p : ProductSpec) : Except Unit Product :=
  Except.map (fun bytes => extendWithImage p (mkImageUrl bytes)) (imageGen (imagePrompt p.name))

/-- `Promise.all` fan-in, step 1: the promises settle in `order`; each
fulfilled promise writes its value into the slot of its source index, the
first rejection rejects the whole batch.  An index outside the task list
never settles and is skipped. -/
def fillOrderF (tasks : List (Except Unit β)) : List Nat → (Nat → Option β) → Except Unit (Nat → Option β)
  | [], slots => Except.ok slots
  | i :: rest, slots =>
    match tasks[i]? with
    | some (Except.error e) => Except.error e
    | some (Except.ok v) => fillOrderF tasks rest (fun j => if j = i then some v else slots j)
    | none => fillOrderF tasks rest slots

/-- `Promise.all` fan-in, step 2: read the slots out in index order;
`none` when some slot never settled. -/
def readOut (slots : Nat → Option β) : List Nat → Option (List β)
  | [] => some []
  | i :: rest =>
    match slots i, readOut slots rest with
    | some v, some l => some (v :: l)
    | _, _ => none

/-- `Promise.all(productPromises)`: settles the promises in completion
`order` and reads the results back in source-index order.  `none` models a
batch that never settles (a hung image call hangs the page). -/
def promiseAll (order : List Nat) (tasks : List (Except Unit β)) : Option (Except Unit (List β)) :=
  match fillOrderF tasks order (fun _ => none) with
  | Except.error _ => some (Except.error ())
  | Except.ok slots => (readOut slots (List.range tasks.length)).map Except.ok

/-- The final state of one run together with how many image-generation
calls were issued (the fan-out issues one call per parsed spec; a failing
text call issues none). -/
structure RunResult where
  finalState : UIState
  imageCallCount : Nat
deriving DecidableEq

/-- The `fetchProducts` workflow of `App`: set loading/clear error, await the
text call, `JSON.parse` its text, fan out one image call per spec, await
`Promise.all`, store the merged products; any throw lands in the `catch`
(set the generic error message), and the `finally` clears `loading`.
`none` models a run that never terminates (a hung promise). -/
def fetchProducts (env : Env) (s : UIState) : Option RunResult :=
  let s1 : UIState := { s with loading := true, error := "" }
  match env.textResult with
  | Except.error _ =>
    some { finalState := { s1 with error := errorMessage, loading := false }, imageCallCount := 0 }
  | Except.ok text =>
    match env.parse text with
    | Except.error _ =>
      some { finalState := { s1 with error := errorMessage, loading := false }, imageCallCount := 0 }
    | Except.ok specs =>
      match promiseAll env.completionOrder (specs.map (imageTask env.imageResult)) with
      | none => none
      | some (Except.error _) =>
        some { finalState := { s1 with error := errorMessage, loading := false },
               imageCallCount := specs.length }
      | some (Except.ok prods) =>
        some { finalState := { s1 with products := prods, loading := false },
               imageCallCount := specs.length }

/-- Two-digit zero padding for the fractional part of a price. -/
def padTwo (n : Nat) : String :=
  if n < 10 then "0" ++ toString n else toString n

/-- `price.toFixed(2)` for a non-negative price: round to the nearest
hundredth (ties up) and print with two decimals. -/
def toFixed2 (q : Rat) : String :=
  toString (round (q * 100) / 100) ++ "." ++ padTwo (round (q * 100) % 100).toNat

/-- The rendered fields of one `ProductCard`. -/
structure ProductCardView where
  imageSrc : String
  imageAlt : String
  name : String
  description : String
  priceText : String
  buyLabel : String
deriving DecidableEq

/-- The `ProductCard` component: image, alt text, name, description,
`$${price.toFixed(2)}`, and the add-to-cart label. -/
def renderProductCard (p : Product) : ProductCardView :=
  { imageSrc := p.imageUrl
    imageAlt := "AI generated image of " ++ p.name
    name := p.name
    description := p.description
    priceText := "$" ++ toFixed2 p.price
    buyLabel := "Add " ++ p.name ++ " to cart" }

/-- What `App`'s markup shows for a given state: the loader iff `loading`,
the error box iff `error` is truthy (non-empty), and the product grid iff
`!loading && !error`. -/
structure Rendered where
  loader : Bool
  errorBox : Option String
  grid : Option (List ProductCardView)
deriving DecidableEq

/-- The `App` component's rendering of a `UIState`. -/
def renderApp (s : UIState) : Rendered :=
  { loader := s.loading
    errorBox := if s.error = "" then none else some s.error
    grid := if s.loading = false ∧ s.error = "" then some (s.products.map renderProductCard) else none }

/-- The fatal startup message thrown when the API key is missing. -/
def apiKeyErrorMessage : String := "API_KEY environment variable not set"

/-- Outcome of module-load time: either the missing-credential throw, or a
constructed client holding the key. -/
inductive StartupResult where
  | fatal (msg : String)
  | started (apiKey : String)
deriving DecidableEq

/-- The top-of-module credential check: `process.env.API_KEY` is read once;
`!API_KEY` (absent or empty, both falsy) throws before anything renders. -/
def startup (envApiKey : Option String) : StartupResult :=
  match envApiKey with
  | none => StartupResult.fatal apiKeyErrorMessage
  | some k => if k = "" then StartupResult.fatal apiKeyErrorMessage else StartupResult.started k

/-- The whole program: the credential check precedes the render call and
with it the workflow; a fatal startup yields no run at all. -/
def program (envApiKey : Option String) (env : Env) : Except String (Option RunResult) :=
  match startup envApiKey with
  | StartupResult.fatal msg => Except.error msg
  | StartupResult.started _ => Except.ok (fetchProducts env initialState)

/-- The two click handlers of `LiveChat`: the bubble toggles
`setChatOpen(!isChatOpen)`, the close button does `setChatOpen(false)`. -/
inductive ChatEvent where
  | bubbleClick
  | closeClick

/-- One chat interaction applied to the UI state. -/
def applyChatEvent (s : UIState) : ChatEvent → UIState
  | ChatEvent.bubbleClick => { s with chatOpen := !s.chatOpen }
  | ChatEvent.closeClick => { s with chatOpen := false }

/-- A sequence of chat interactions. -/
def applyChatEvents (s : UIState) (evs : List ChatEvent) : UIState :=
  List.foldl applyChatEvent s evs

/-- A default product, used only to discharge a `getD` default. -/
def defaultProduct : Product :=
  { name := "", description := "", price := 0, imageUrl := "" }

/-- The spec of the concrete scenario in the spec's testable properties. -/
def specBoss : ProductSpec :=
  { name := "Boss Tee", description := "Defeat lag in style", price := 24.99 }

/-- A run where the text call yields the Boss Tee spec and the image call
returns the bytes `"AAAA"`. -/
def envBoss : Env :=
  { textResult := Except.ok "boss"
    parse := fun _ => Except.ok [specBoss]
    imageResult := fun _ => Except.ok "AAAA"
    completionOrder := [0] }

/-- A second and third spec, used to exercise out-of-order completion. -/
def specAlpha : ProductSpec :=
  { name := "Alpha Tee", description := "First in the list", price := 10 }

def specBeta : ProductSpec :=
  { name := "Beta Tee", description := "Second in the list", price := 20 }

/-- A run with two specs whose image promises settle in reverse order. -/
def envTwoOutOfOrder : Env :=
  { textResult := Except.ok "two"
    parse := fun _ => Except.ok [specAlpha, specBeta]
    imageResult := fun _ => Except.ok "AAAA"
    completionOrder := [1, 0] }

/-- A run where every image call throws. -/
def envImageFail : Env :=
  { textResult := Except.ok "two"
    parse := fun _ => Except.ok [specAlpha, specBeta]
    imageResult := fun _ => Except.error ()
    completionOrder := [0, 1] }

/-- A run whose text call throws. -/
def envTextFail : Env :=
  { textResult := Except.error ()
    parse := fun _ => Except.error ()
    imageResult := fun _ => Except.ok "AAAA"
    completionOrder := [] }

/-- A run whose text call succeeds but whose response is not parseable. -/
def envParseFail : Env :=
  { textResult := Except.ok "not json"
    parse := fun _ => Except.error ()
    imageResult := fun _ => Except.ok "AAAA"
    completionOrder := [] }

/-- A run whose text call returns an empty array. -/
def envEmpty : Env :=
  { textResult := Except.ok "[]"
    parse := fun _ => Except.ok []
    imageResult := fun _ => Except.ok "AAAA"
    completionOrder := [] }

/-- A small spec used to build longer lists. -/
def specOfName (n : String) : ProductSpec :=
  { name := n, description := "d", price := 1 }

/-- A run where the text call returns six specs: nothing in the code bounds
the list to the five items the prompt asks for. -/
def envSix : Env :=
  { textResult := Except.ok "six"
    parse := fun _ => Except.ok
      [specOfName "A", specOfName "B", specOfName "C",
       specOfName "D", specOfName "E", specOfName "F"]
    imageResult := fun _ => Except.ok "AAAA"
    completionOrder := [0, 1, 2, 3, 4, 5] }

/-- A run where the text call returns a spec with empty name, empty
description and a negative price: the code never validates these. -/
def envInvalidSpec : Env :=
  { textResult := Except.ok "bad"
    parse := fun _ => Except.ok [{ name := "", description := "", price := -1 }]
    imageResult := fun _ => Except.ok "AAAA"
    completionOrder := [0] }

lemma readOut_eq_map (slots : Nat → Option β) (g : Nat → β) (l : List Nat)
    (h : ∀ i ∈ l, slots i = some (g i)) :
    readOut slots l = some (l.map g) := by
  induction l with
  | nil => rfl
  | cons i rest ih =>
    have hi : slots i = some (g i) := h i (List.mem_cons_self i rest)
    have hr := ih (fun j hj => h j (List.mem_cons_of_mem i hj))
    simp [readOut, hi, hr]

lemma range_map_getD (L : List β) (d : β) :
    (List.range L.length).map (fun i => L.getD i d) = L := by
  induction L with
  | nil => rfl
  | cons a t ih =>
    rw [List.length_cons, List.range_succ_eq_map]
    simp only [List.map_cons, List.getD_cons_zero, List.map_map, Function.comp_def,
      List.getD_cons_succ]
    rw [ih]

lemma fillOrderF_all_ok (M : List β) (order : List Nat) :
    ∀ slots : Nat → Option β,
      (∀ j v, slots j = some v → M[j]? = some v) →
      ∃ slots2, fillOrderF (M.map Except.ok) order slots = Except.ok slots2 ∧
        (∀ j v, slots2 j = some v → M[j]? = some v) ∧
        (∀ i ∈ order, i < M.length → (slots2 i).isSome = true) ∧
        (∀ i, (slots i).isSome = true → (slots2 i).isSome = true) := by
  induction order with
  | nil =>
    intro slots hs
    exact ⟨slots, rfl, hs, by simp, fun i h => h⟩
  | cons i rest ih =>
    intro slots hs
    rcases hMi : M[i]? with _ | v
    · have htask : (M.map Except.ok)[i]? = (none : Option (Except Unit β)) := by
        simp [List.getElem?_map, hMi]
      obtain ⟨s2, h1, h2, h3, h4⟩ := ih slots hs
      refine ⟨s2, ?_, h2, ?_, h4⟩
      · simp only [fillOrderF, htask]
        exact h1
      · intro j hj hjlt
        rcases List.mem_cons.mp hj with rfl | hjr
        · rw [List.getElem?_eq_getElem hjlt] at hMi
          cases hMi
        · exact h3 j hjr hjlt
    · have htask : (M.map Except.ok)[i]? = some (Except.ok v : Except Unit β) := by
        simp [List.getElem?_map, hMi]
      have hs' : ∀ j w, (fun j => if j = i then some v else slots j) j = some w → M[j]? = some w := by
        intro j w hj
        by_cases hji : j = i
        · subst hji
          simp only [if_pos, Option.some.injEq] at hj
          rw [hMi]
          exact congrArg some hj
        · simp only [if_neg hji] at hj
          exact hs j w hj
      obtain ⟨s2, h1, h2, h3, h4⟩ := ih _ hs'
      refine ⟨s2, ?_, h2, ?_, ?_⟩
      · simp only [fillOrderF, htask]
        exact h1
      · intro j hj hjlt
        rcases List.mem_cons.mp hj with rfl | hjr
        · exact h4 j (by simp)
        · exact h3 j hjr hjlt
      · intro j hjs
        apply h4
        by_cases hji : j = i <;> simp [hji, hjs]

lemma fillOrderF_err (tasks : List (Except Unit β)) (i : Nat) (order : List Nat) :
    ∀ slots : Nat → Option β,
      i ∈ order → tasks[i]? = some (Except.error ()) →
      ∃ e, fillOrderF tasks order slots = Except.error e := by
  induction order with
  | nil =>
    intro slots h _
    simp at h
  | cons j rest ih =>
    intro slots hmem hie
    rcases htj : tasks[j]? with _ | r
    · have hir : i ∈ rest := by
        rcases List.mem_cons.mp hmem with rfl | h
        · rw [htj] at hie
          cases hie
        · exact h
      obtain ⟨e, he⟩ := ih _ hir hie
      refine ⟨e, ?_⟩
      simp only [fillOrderF, htj]
      exact he
    · rcases r with e | v
      · refine ⟨e, ?_⟩
        simp only [fillOrderF, htj]
      · have hir : i ∈ rest := by
          rcases List.mem_cons.mp hmem with rfl | h
          · rw [htj] at hie
            simp at hie
          · exact h
        obtain ⟨e, he⟩ := ih _ hir hie
        refine ⟨e, ?_⟩
        simp only [fillOrderF, htj]
        exact he

lemma promiseAll_ok (M : List β) (d : β) (order : List Nat)
    (hcov : ∀ i, i < M.length → i ∈ order) :
    promiseAll order (M.map Except.ok) = some (Except.ok M) := by
  obtain ⟨s2, h1, h2, h3, _⟩ :=
    fillOrderF_all_ok M order (fun _ => none) (by intro j v h; cases h)
  have hread : readOut s2 (List.range M.length)
      = some ((List.range M.length).map (fun i => M.getD i d)) := by
    apply readOut_eq_map
    intro i hi
    have hilt : i < M.length := List.mem_range.mp hi
    have hsome := h3 i (hcov i hilt) hilt
    obtain ⟨v, hv⟩ := Option.isSome_iff_exists.mp hsome
    have hMv := h2 i v hv
    rw [hv]
    have : M.getD i d = v := by
      rw [List.getD_eq_getElem?_getD, hMv]
      rfl
    rw [this]
  simp only [promiseAll, h1, List.length_map, hread, range_map_getD]
  rfl

lemma promiseAll_err (tasks : List (Except Unit β)) (order : List Nat) (i : Nat)
    (hi : i ∈ order) (hie : tasks[i]? = some (Except.error ())) :
    promiseAll order tasks = some (Except.error ()) := by
  obtain ⟨e, he⟩ := fillOrderF_err tasks i order (fun _ => none) hi hie
  simp [promiseAll, he]

lemma fillOrderF_nil_tasks (order : List Nat) (slots : Nat → Option β) :
    fillOrderF ([] : List (Except Unit β)) order slots = Except.ok slots := by
  induction order with
  | nil => rfl
  | cons i rest ih => simpa [fillOrderF] using ih

lemma promiseAll_nil (order : List Nat) :
    promiseAll order ([] : List (Except Unit β)) = some (Except.ok []) := by
  simp [promiseAll, fillOrderF_nil_tasks, readOut]

lemma perm_range_cov (order : List Nat) (n : Nat) (h : order.Perm (List.range n)) :
    ∀ i, i < n → i ∈ order := by
  intro i hi
  exact h.mem_iff.mpr (List.mem_range.mpr hi)

lemma fetchProducts_success (env : Env) (text : String) (specs : List ProductSpec)
    (bytesOf : ProductSpec → String)
    (htext : env.textResult = Except.ok text)
    (hparse : env.parse text = Except.ok specs)
    (himg : ∀ p ∈ specs, env.imageResult (imagePrompt p.name) = Except.ok (bytesOf p))
    (hcov : ∀ i, i < specs.length → i ∈ env.completionOrder) :
    fetchProducts env initialState = some
      { finalState := { products := specs.map (fun p => extendWithImage p (mkImageUrl (bytesOf p))),
                        loading := false, error := "", chatOpen := false },
        imageCallCount := specs.length } := by
  have hmap : specs.map (imageTask env.imageResult)
      = (specs.map (fun p => extendWithImage p (mkImageUrl (bytesOf p)))).map Except.ok := by
    rw [List.map_map]
    apply List.map_congr_left
    intro p hp
    simp [imageTask, himg p hp, Except.map]
  have hall := promiseAll_ok (specs.map fun p => extendWithImage p (mkImageUrl (bytesOf p)))
    defaultProduct env.completionOrder (by simpa using hcov)
  rw [← hmap] at hall
  simp only [fetchProducts, htext, hparse, hall, initialState]

lemma fetchProducts_imageFail (env : Env) (text : String) (specs : List ProductSpec)
    (p : ProductSpec)
    (htext : env.textResult = Except.ok text)
    (hparse : env.parse text = Except.ok specs)
    (hp : p ∈ specs)
    (hfail : env.imageResult (imagePrompt p.name) = Except.error ())
    (hcov : ∀ i, i < specs.length → i ∈ env.completionOrder) :
    fetchProducts env initialState = some
      { finalState := { products := [], loading := false, error := errorMessage,
                        chatOpen := false },
        imageCallCount := specs.length } := by
  obtain ⟨i, hilt, hig⟩ := List.mem_iff_getElem.mp hp
  have htask : (specs.map (imageTask env.imageResult))[i]? = some (Except.error ()) := by
    rw [List.getElem?_map, List.getElem?_eq_getElem hilt]
    simp [hig, imageTask, hfail, Except.map]
  have hall := promiseAll_err (specs.map (imageTask env.imageResult))
    env.completionOrder i (hcov i hilt) htask
  simp only [fetchProducts, htext, hparse, hall, initialState]

lemma fetchProducts_textFail (env : Env)
    (h : env.textResult = Except.error () ∨
      ∃ text, env.textResult = Except.ok text ∧ env.parse text = Except.error ()) :
    fetchProducts env initialState = some
      { finalState := { products := [], loading := false, error := errorMessage,
                        chatOpen := false },
        imageCallCount := 0 } := by
  rcases h with h | ⟨text, htext, hparse⟩
  · simp only [fetchProducts, h, initialState]
  · simp only [fetchProducts, htext, hparse, initialState]

lemma fetchProducts_emptySpecs (env : Env) (text : String)
    (htext : env.textResult = Except.ok text)
    (hparse : env.parse text = Except.ok []) :
    fetchProducts env initialState = some
      { finalState := { products := [], loading := false, error := "", chatOpen := false },
        imageCallCount := 0 } := by
  simp only [fetchProducts, htext, hparse, List.map_nil, promiseAll_nil, initialState,
    List.length_nil]

/-- C1: for every successful run (text call parses to `specs`, every image
call succeeds, the image promises settle in an arbitrary permutation of the
source indices), the merged product sequence — and the rendered grid — is
`specs` in the text call's order, each spec extended with the image
generated from its name's prompt. -/
theorem c1_merged_order_matches_text_order (env : Env) (text : String)
    (specs : List ProductSpec) (bytesOf : ProductSpec → String)
    (htext : env.textResult = Except.ok text)
    (hparse : env.parse text = Except.ok specs)
    (himg : ∀ p ∈ specs, env.imageResult (imagePrompt p.name) = Except.ok (bytesOf p))
    (horder : env.completionOrder.Perm (List.range specs.length)) :
    fetchProducts env initialState = some
      { finalState := { products := specs.map (fun p => extendWithImage p (mkImageUrl (bytesOf p))),
                        loading := false, error := "", chatOpen := false },
        imageCallCount := specs.length } ∧
    (renderApp { products := specs.map (fun p => extendWithImage p (mkImageUrl (bytesOf p))),
                 loading := false, error := "", chatOpen := false }).grid
      = some ((specs.map (fun p => extendWithImage p (mkImageUrl (bytesOf p)))).map
          renderProductCard) := by
  refine ⟨fetchProducts_success env text specs bytesOf htext hparse himg
    (perm_range_cov env.completionOrder specs.length horder), ?_⟩
  simp [renderApp]

/-- C1 witness: two specs whose image promises settle in reverse order
(`completionOrder = [1, 0]`) still merge and render in text order. -/
theorem c1_witness :
    fetchProducts envTwoOutOfOrder initialState = some
      { finalState := { products := [extendWithImage specAlpha (mkImageUrl "AAAA"),
                                     extendWithImage specBeta (mkImageUrl "AAAA")],
                        loading := false, error := "", chatOpen := false },
        imageCallCount := 2 } ∧
    (renderApp { products := [extendWithImage specAlpha (mkImageUrl "AAAA"),
                              extendWithImage specBeta (mkImageUrl "AAAA")],
                 loading := false, error := "", chatOpen := false }).grid
      = some [renderProductCard (extendWithImage specAlpha (mkImageUrl "AAAA")),
              renderProductCard (extendWithImage specBeta (mkImageUrl "AAAA"))] :=
  c1_merged_order_matches_text_order envTwoOutOfOrder "two" [specAlpha, specBeta]
    (fun _ => "AAAA") rfl rfl (fun _ _ => rfl) (by decide)

/-- C2: if the text call succeeds but some image call fails, the run ends
with no products, the single generic error message, and no grid rendered
(all-or-nothing). -/
theorem c2_image_failure_all_or_nothing (env : Env) (text : String)
    (specs : List ProductSpec) (p : ProductSpec)
    (htext : env.textResult = Except.ok text)
    (hparse : env.parse text = Except.ok specs)
    (hp : p ∈ specs)
    (hfail : env.imageResult (imagePrompt p.name) = Except.error ())
    (horder : env.completionOrder.Perm (List.range specs.length)) :
    fetchProducts env initialState = some
      { finalState := { products := [], loading := false, error := errorMessage,
                        chatOpen := false },
        imageCallCount := specs.length } ∧
    renderApp { products := [], loading := false, error := errorMessage, chatOpen := false }
      = { loader := false, errorBox := some errorMessage, grid := none } := by
  refine ⟨fetchProducts_imageFail env text specs p htext hparse hp hfail
    (perm_range_cov env.completionOrder specs.length horder), ?_⟩
  simp [renderApp, errorMessage]

/-- C2 witness: two specs, every image call throws: the error state replaces
the grid and zero products survive. -/
theorem c2_witness :
    fetchProducts envImageFail initialState = some
      { finalState := { products := [], loading := false, error := errorMessage,
                        chatOpen := false },
        imageCallCount := 2 } ∧
    renderApp { products := [], loading := false, error := errorMessage, chatOpen := false }
      = { loader := false, errorBox := some errorMessage, grid := none } :=
  c2_image_failure_all_or_nothing envImageFail "two" [specAlpha, specBeta] specAlpha
    rfl rfl (List.mem_cons_self specAlpha [specBeta]) rfl (by decide)

/-- C3: if the text call throws, or its response does not parse, the run
terminates in the error state having issued zero image calls. -/
theorem c3_text_failure_no_image_calls (env : Env)
    (h : env.textResult = Except.error () ∨
      ∃ text, env.textResult = Except.ok text ∧ env.parse text = Except.error ()) :
    fetchProducts env initialState = some
      { finalState := { products := [], loading := false, error := errorMessage,
                        chatOpen := false },
        imageCallCount := 0 } :=
  fetchProducts_textFail env h

/-- C3 witness: a throwing text call ends in the error state with zero image
calls issued. -/
theorem c3_witness :
    fetchProducts envTextFail initialState = some
      { finalState := { products := [], loading := false, error := errorMessage,
                        chatOpen := false },
        imageCallCount := 0 } :=
  c3_text_failure_no_image_calls envTextFail (Or.inl rfl)

/-- C4 as stated is false: the requested count of 5 lives only in the prompt
text; when the text call returns six specs, all six are merged and rendered,
so the product count is not bounded above by 5. -/
theorem c4_counterexample :
    (fetchProducts envSix initialState).map (fun r => r.finalState.products.length)
      = some 6 ∧ ¬ (6 ≤ 5) :=
  ⟨rfl, by decide⟩

/-- C4 amended: for every successful run the rendered product count equals
the number of specs returned by the text call; no bound of 5 is enforced by
the code (the 5 appears only in the prompt). -/
theorem c4_rendered_count_equals_text_count (env : Env) (text : String)
    (specs : List ProductSpec) (bytesOf : ProductSpec → String)
    (htext : env.textResult = Except.ok text)
    (hparse : env.parse text = Except.ok specs)
    (himg : ∀ p ∈ specs, env.imageResult (imagePrompt p.name) = Except.ok (bytesOf p))
    (horder : env.completionOrder.Perm (List.range specs.length)) :
    ∃ r, fetchProducts env initialState = some r ∧
      r.finalState.products.length = specs.length ∧
      ∃ cards, (renderApp r.finalState).grid = some cards ∧ cards.length = specs.length := by
  refine ⟨_, fetchProducts_success env text specs bytesOf htext hparse himg
    (perm_range_cov env.completionOrder specs.length horder), by simp, ?_⟩
  refine ⟨(specs.map fun p => extendWithImage p (mkImageUrl (bytesOf p))).map
    renderProductCard, ?_, by simp⟩
  simp [renderApp]

/-- C4 witness: the two-spec run renders exactly two cards. -/
theorem c4_witness :
    ∃ r, fetchProducts envTwoOutOfOrder initialState = some r ∧
      r.finalState.products.length = 2 ∧
      ∃ cards, (renderApp r.finalState).grid = some cards ∧ cards.length = 2 :=
  c4_rendered_count_equals_text_count envTwoOutOfOrder "two" [specAlpha, specBeta]
    (fun _ => "AAAA") rfl rfl (fun _ _ => rfl) (by decide)

/-- C5 as stated is false: the code never validates the parsed specs, so a
run whose text call returns an empty name, empty description and negative
price passes that value through to image generation and rendering. -/
theorem c5_counterexample :
    (fetchProducts envInvalidSpec initialState).map
        (fun r => r.finalState.products.map (fun q => (q.name, q.description, q.price)))
      = some [("", "", (-1 : Rat))] ∧ ¬ ((0 : Rat) ≤ -1) ∧ ("" : String) = "" :=
  ⟨rfl, by norm_num, rfl⟩

/-- C5 amended: the three schema fields are always present (by the shape of
`ProductSpec`) and every successful run passes each spec through to the
rendered product unchanged; but neither non-emptiness of name/description
nor non-negativity of price is checked anywhere. -/
theorem c5_specs_passed_through_unvalidated (env : Env) (text : String)
    (specs : List ProductSpec) (bytesOf : ProductSpec → String)
    (htext : env.textResult = Except.ok text)
    (hparse : env.parse text = Except.ok specs)
    (himg : ∀ p ∈ specs, env.imageResult (imagePrompt p.name) = Except.ok (bytesOf p))
    (horder : env.completionOrder.Perm (List.range specs.length)) :
    ∃ r, fetchProducts env initialState = some r ∧
      r.finalState.products.map Product.toSpec = specs := by
  refine ⟨_, fetchProducts_success env text specs bytesOf htext hparse himg
    (perm_range_cov env.completionOrder specs.length horder), ?_⟩
  show (specs.map fun p => extendWithImage p (mkImageUrl (bytesOf p))).map Product.toSpec = specs
  rw [List.map_map]
  conv_rhs => rw [← List.map_id specs]
  apply List.map_congr_left
  intro p _
  rfl

/-- C5 witness: the two-spec run returns exactly its source specs. -/
theorem c5_witness :
    ∃ r, fetchProducts envTwoOutOfOrder initialState = some r ∧
      r.finalState.products.map Product.toSpec = [specAlpha, specBeta] :=
  c5_specs_passed_through_unvalidated envTwoOutOfOrder "two" [specAlpha, specBeta]
    (fun _ => "AAAA") rfl rfl (fun _ _ => rfl) (by decide)

/-- C6: in the concrete Boss Tee scenario the rendered card has the spec's
name and description, price text `$24.99`, and image source
`data:image/png;base64,AAAA`. -/
theorem c6_boss_tee_scenario :
    (fetchProducts envBoss initialState).map
        (fun r => r.finalState.products.map renderProductCard)
      = some [{ imageSrc := "data:image/png;base64,AAAA",
                imageAlt := "AI generated image of Boss Tee",
                name := "Boss Tee", description := "Defeat lag in style",
                priceText := "$24.99",
                buyLabel := "Add Boss Tee to cart" }] := by
  have hprice : toFixed2 (24.99 : Rat) = "24.99" := by
    have h1 : round ((24.99 : Rat) * 100) = 2499 := by norm_num [round_eq]
    rw [toFixed2, h1]
    rfl
  have hrun : fetchProducts envBoss initialState = some
      { finalState := { products := [extendWithImage specBoss (mkImageUrl "AAAA")],
                        loading := false, error := "", chatOpen := false },
        imageCallCount := 1 } := rfl
  rw [hrun]
  simp [renderProductCard, extendWithImage, mkImageUrl, specBoss, hprice]

/-- C7: the API key is the single environment credential the program reads,
at module load; when it is absent the startup check throws the fatal message
and no render — hence no workflow run and no network call — happens. -/
theorem c7_missing_api_key_fatal (env : Env) :
    startup none = StartupResult.fatal apiKeyErrorMessage ∧
    program none env = Except.error apiKeyErrorMessage :=
  ⟨rfl, rfl⟩

/-- C8: any sequence of chat-widget interactions leaves the `products`,
`loading` and `error` cells untouched; only `chatOpen` can change. -/
theorem c8_chat_toggle_preserves_workflow_state (s : UIState) (evs : List ChatEvent) :
    (applyChatEvents s evs).products = s.products ∧
    (applyChatEvents s evs).loading = s.loading ∧
    (applyChatEvents s evs).error = s.error := by
  induction evs generalizing s with
  | nil => exact ⟨rfl, rfl, rfl⟩
  | cons e rest ih =>
    have h := ih (applyChatEvent s e)
    have he : (applyChatEvent s e).products = s.products ∧
        (applyChatEvent s e).loading = s.loading ∧
        (applyChatEvent s e).error = s.error := by
      cases e <;> exact ⟨rfl, rfl, rfl⟩
    have hstep : applyChatEvents s (e :: rest) = applyChatEvents (applyChatEvent s e) rest := rfl
    rw [hstep]
    exact ⟨h.1.trans he.1, h.2.1.trans he.2.1, h.2.2.trans he.2.2⟩

/-- C9: a text call returning an empty array completes the run with zero
image calls, no error, and an empty — but rendered — grid. -/
theorem c9_empty_spec_list_success (env : Env) (text : String)
    (htext : env.textResult = Except.ok text)
    (hparse : env.parse text = Except.ok []) :
    fetchProducts env initialState = some
      { finalState := { products := [], loading := false, error := "", chatOpen := false },
        imageCallCount := 0 } ∧
    renderApp { products := [], loading := false, error := "", chatOpen := false }
      = { loader := false, errorBox := none, grid := some [] } :=
  ⟨fetchProducts_emptySpecs env text htext hparse, by simp [renderApp]⟩

/-- C9 witness: the empty-array run. -/
theorem c9_witness :
    fetchProducts envEmpty initialState = some
      { finalState := { products := [], loading := false, error := "", chatOpen := false },
        imageCallCount := 0 } ∧
    renderApp { products := [], loading := false, error := "", chatOpen := false }
      = { loader := false, errorBox := none, grid := some [] } :=
  c9_empty_spec_list_success envEmpty "[]" rfl rfl

/-- C10: every terminating run (the `finally` block) ends with
`loading = false`, so the loader is not rendered afterwards and the final
state is never simultaneously loading and in error. -/
theorem c10_terminated_run_not_loading (env : Env) (s : UIState) (r : RunResult)
    (h : fetchProducts env s = some r) :
    r.finalState.loading = false ∧
    (renderApp r.finalState).loader = false ∧
    ¬ (r.finalState.loading = true ∧ r.finalState.error ≠ "") := by
  have hload : r.finalState.loading = false := by
    rcases h1 : env.textResult with e | text
    · simp only [fetchProducts, h1, Option.some.injEq] at h
      rw [← h]
    · rcases h2 : env.parse text with e | specs
      · simp only [fetchProducts, h1, h2, Option.some.injEq] at h
        rw [← h]
      · rcases h3 : promiseAll env.completionOrder (specs.map (imageTask env.imageResult))
          with _ | res
        · simp only [fetchProducts, h1, h2, h3] at h
          exact Option.noConfusion h
        · rcases res with e | prods
          · simp only [fetchProducts, h1, h2, h3, Option.some.injEq] at h
            rw [← h]
          · simp only [fetchProducts, h1, h2, h3, Option.some.injEq] at h
            rw [← h]
  refine ⟨hload, hload, ?_⟩
  rintro ⟨hl, _⟩
  rw [hload] at hl
  cases hl

/-- C10 witness: a failed-text run terminates with `loading = false` and no
loader. -/
theorem c10_witness :
    (({ finalState := { products := [], loading := false, error := errorMessage,
                        chatOpen := false },
        imageCallCount := 0 } : RunResult)).finalState.loading = false ∧
    (renderApp ({ finalState := { products := [], loading := false, error := errorMessage,
                                  chatOpen := false },
                  imageCallCount := 0 } : RunResult).finalState).loader = false ∧
    ¬ ((({ finalState := { products := [], loading := false, error := errorMessage,
                           chatOpen := false },
           imageCallCount := 0 } : RunResult)).finalState.loading = true ∧
       (({ finalState := { products := [], loading := false, error := errorMessage,
                           chatOpen := false },
           imageCallCount := 0 } : RunResult)).finalState.error ≠ "") :=
  c10_terminated_run_not_loading envTextFail initialState _ rfl

end BloxdShop
